import Mathlib

/-!
Verification of the PiSight relay server's session/state coordinator.

The repository contains several variants of the same socket server:
* `src/server.js`   — module-level `img` buffer shared by all sockets, turn and
  text handlers without a busy flag, unguarded `transcriber.close()`;
* `part_001`        — per-connection `sessionData` (image, imageChunks,
  isProcessing) with `audio_full`, `text_message`, `image_chunk`,
  `clear_image`, `disconnect` handlers, busy-flag guard and finally-reset;
* `part_002`        — per-connection `sessionData` additionally holding the
  streaming transcriber; `turn`, `text_message`, `image_chunk`,
  `audio_start`, `clear_image`, `disconnect` handlers.

Each variant is embedded below as a step function over an explicit session
state; collaborator calls (AiProcessing, textToAudio, the batch transcription
pipeline) are oracles supplied as a `Collab` record of `Except`-returning
functions.  Handlers that run to completion without awaiting between state
reads and writes are modelled atomically; the interleaving machines split
handlers at their `await` points into resumable tasks.
-/

namespace PiSight

/-- Byte buffers (Node `Buffer`) are modelled as lists of byte values. -/
abbrev ByteBuf := List Nat

/-- Events emitted from the server to the client socket. -/
inductive OutEvent where
  | aiResponse (text : String) (audio : ByteBuf)
  | aiTextResponse (text : String)
  | aiResponseAudio (audio : ByteBuf)
  | imageReceived (size : Nat)
  | imageCleared
  | errorEvent (ty : String) (msg : String)
  deriving Repr, DecidableEq

/-- One invocation of the AiProcessing collaborator: the image argument and
the text argument it receives. -/
abbrev AiCall := Option ByteBuf × String

/-- Collaborator oracle: outcomes of the cloud calls a handler awaits.
`aiProcessing` is the vision+text step, `textToAudio` the speech synthesis
step, `transcribeFull` the upload/create/wait batch-transcription pipeline of
the `audio_full` handler (whose completed transcript may have a null `text`
field, hence `Option String`). -/
structure Collab where
  aiProcessing : Option ByteBuf → String → Except String String
  textToAudio : String → Except String ByteBuf
  transcribeFull : ByteBuf → Except String (Option String)

/-- A collaborator assignment where every upstream call succeeds. -/
def okCollab : Collab where
  aiProcessing := fun _ msg => .ok ("You said: " ++ msg)
  textToAudio := fun _ => .ok [1, 2, 3]
  transcribeFull := fun _ => .ok (some "hello")

/-- A collaborator assignment where every upstream call fails. -/
def failCollab : Collab where
  aiProcessing := fun _ _ => .error "model overloaded"
  textToAudio := fun _ => .error "tts unavailable"
  transcribeFull := fun _ => .error "stt unavailable"

namespace P1

/-- Session state of the `part_001` variant: the per-connection `sessionData`
object (`image`, `imageChunks`, `isProcessing`). -/
structure SessionData where
  image : Option ByteBuf
  imageChunks : List ByteBuf
  isProcessing : Bool
  deriving Repr, DecidableEq

/-- The `sessionData` initialiser of `part_001`. -/
def initSession : SessionData :=
  { image := none, imageChunks := [], isProcessing := false }

/-- Client events handled by the `part_001` variant. -/
inductive InEvent where
  | imageChunk (chunk : ByteBuf) (isLast : Bool)
  | textMessage (msg : String)
  | audioFull (audio : ByteBuf)
  | clearImage
  | disconnect
  deriving Repr, DecidableEq

/-- Result of running one handler to completion: the new session state, the
events emitted to the client, and the AiProcessing invocations made. -/
structure StepResult where
  sess : SessionData
  out : List OutEvent
  calls : List AiCall
  deriving Repr, DecidableEq

/-- The AiProcessing-then-textToAudio pipeline shared by the `text_message`
and `audio_full` handlers of `part_001`: a failure of either call is caught
and reported with the handler's error type. -/
def dispatch (c : Collab) (img : Option ByteBuf) (text : String)
    (errType : String) : List OutEvent × List AiCall :=
  match c.aiProcessing img text with
  | .error e => ([.errorEvent errType e], [(img, text)])
  | .ok txt =>
    match c.textToAudio txt with
    | .error e => ([.errorEvent errType e], [(img, text)])
    | .ok audio => ([.aiResponse txt audio], [(img, text)])

/-- One client event handled to completion in the `part_001` variant.
`text_message` and `audio_full` set `isProcessing` on entry and reset it in
their `finally` block; running the handler to completion therefore leaves the
flag `false` on every non-busy path. -/
def step (c : Collab) (s : SessionData) : InEvent → StepResult
  | .imageChunk chunk isLast =>
    let chunks := s.imageChunks ++ [chunk]
    if isLast then
      let full := chunks.flatten
      ⟨{ s with image := some full, imageChunks := [] },
        [.imageReceived full.length], []⟩
    else
      ⟨{ s with imageChunks := chunks }, [], []⟩
  | .textMessage m =>
    if s.isProcessing then
      ⟨s, [.errorEvent "busy" "Still processing previous request"], []⟩
    else
      let r := dispatch c s.image m "text_processing"
      ⟨{ s with isProcessing := false }, r.1, r.2⟩
  | .audioFull audio =>
    if s.isProcessing then
      ⟨s, [.errorEvent "busy" "Still processing previous request"], []⟩
    else
      match c.transcribeFull audio with
      | .error e =>
        ⟨{ s with isProcessing := false }, [.errorEvent "full_audio" e], []⟩
      | .ok t =>
        let r := dispatch c s.image (t.getD "") "full_audio"
        ⟨{ s with isProcessing := false }, r.1, r.2⟩
  | .clearImage =>
    ⟨{ s with image := none }, [.imageCleared], []⟩
  | .disconnect =>
    ⟨{ s with image := none, imageChunks := [] }, [], []⟩

/-- Run a sequence of client events, accumulating emitted events and
AiProcessing invocations. -/
def runSeq (c : Collab) (s : SessionData) : List InEvent → StepResult
  | [] => ⟨s, [], []⟩
  | e :: es =>
    let r := step c s e
    let r' := runSeq c r.sess es
    ⟨r'.sess, r.out ++ r'.out, r.calls ++ r'.calls⟩

/-- The event sequence of a chunked image upload: every payload in `ps` sent
with `isLast = false`, then `lastChunk` with `isLast = true`. -/
def chunkEvents : List ByteBuf → ByteBuf → List InEvent
  | [], lastChunk => [.imageChunk lastChunk true]
  | p :: ps, lastChunk => .imageChunk p false :: chunkEvents ps lastChunk

theorem p1_chunk_upload (c : Collab) (ps : List ByteBuf)
    (lastChunk : ByteBuf) :
    ∀ s : SessionData,
      (runSeq c s (chunkEvents ps lastChunk)).sess.image
          = some ((s.imageChunks ++ ps ++ [lastChunk]).flatten)
      ∧ (runSeq c s (chunkEvents ps lastChunk)).sess.imageChunks = []
      ∧ (runSeq c s (chunkEvents ps lastChunk)).out
          = [.imageReceived ((s.imageChunks ++ ps ++ [lastChunk]).flatten).length] := by
  induction ps with
  | nil =>
    intro s
    simp [chunkEvents, runSeq, step]
  | cons p ps ih =>
    intro s
    have h := ih { s with imageChunks := s.imageChunks ++ [p] }
    simp only [chunkEvents, runSeq, step] at h ⊢
    simpa [List.append_assoc] using h

end P1

/-- Decidable equality for `Except`, needed to decide concrete witnesses that
mention `part_002` image-chunk payloads. -/
instance {ε α : Type} [DecidableEq ε] [DecidableEq α] :
    DecidableEq (Except ε α) := fun x y =>
  match x, y with
  | .error a, .error b =>
    if h : a = b then .isTrue (by rw [h])
    else .isFalse (fun hc => h (by cases hc; rfl))
  | .ok a, .ok b =>
    if h : a = b then .isTrue (by rw [h])
    else .isFalse (fun hc => h (by cases hc; rfl))
  | .error _, .ok _ => .isFalse (fun hc => Except.noConfusion hc)
  | .ok _, .error _ => .isFalse (fun hc => Except.noConfusion hc)

namespace P2

/-- Session state of the `part_002` variant: the per-connection `sessionData`
object.  `transcriber` records whether the streaming transcriber handle was
assigned (it stays `null` when `assemblyClient.streaming.transcriber` threw
during initialisation). -/
structure Session where
  image : Option ByteBuf
  imageChunks : List ByteBuf
  transcriber : Bool
  isProcessing : Bool
  deriving Repr, DecidableEq

/-- The `sessionData` of `part_002` after a successful transcriber setup. -/
def initSession : Session :=
  { image := none, imageChunks := [], transcriber := true,
    isProcessing := false }

/-- Client events handled by the `part_002` variant.  An `image_chunk`
payload is the result of `Buffer.from(data.chunk)`: `.error` models a
malformed chunk on which that conversion throws. -/
inductive InEvent where
  | imageChunk (chunk : Except String ByteBuf) (isLast : Bool)
  | textMessage (msg : String)
  | turn (transcript : String)
  | audioStart
  | audioEnd
  | clearImage
  | disconnect
  deriving Repr, DecidableEq

/-- Result of running one `part_002` handler to completion. -/
structure StepResult where
  sess : Session
  out : List OutEvent
  calls : List AiCall
  deriving Repr, DecidableEq

/-- One client event handled to completion in the `part_002` variant. -/
def step (c : Collab) (s : Session) : InEvent → StepResult
  | .imageChunk data isLast =>
    match data with
    | .error e => ⟨s, [.errorEvent "image_upload" e], []⟩
    | .ok chunk =>
      let chunks := s.imageChunks ++ [chunk]
      if isLast then
        let full := chunks.flatten
        ⟨{ s with image := some full, imageChunks := [] },
          [.imageReceived full.length], []⟩
      else
        ⟨{ s with imageChunks := chunks }, [], []⟩
  | .textMessage m =>
    if s.isProcessing then
      ⟨s, [.errorEvent "busy" "Still processing previous request"], []⟩
    else
      match c.aiProcessing s.image m with
      | .error _ =>
        ⟨{ s with isProcessing := false },
          [.errorEvent "text_processing" "Failed to process your message"],
          [(s.image, m)]⟩
      | .ok txt =>
        match c.textToAudio txt with
        | .error _ =>
          ⟨{ s with isProcessing := false },
            [.errorEvent "text_processing" "Failed to process your message"],
            [(s.image, m)]⟩
        | .ok audio =>
          ⟨{ s with isProcessing := false }, [.aiResponse txt audio],
            [(s.image, m)]⟩
  | .turn t =>
    if t = "" ∨ s.isProcessing then ⟨s, [], []⟩
    else
      match c.aiProcessing s.image t with
      | .error _ =>
        ⟨{ s with isProcessing := false },
          [.errorEvent "ai_processing" "Failed to process your request"],
          [(s.image, t)]⟩
      | .ok txt =>
        match c.textToAudio txt with
        | .error _ =>
          ⟨{ s with isProcessing := false },
            [.errorEvent "ai_processing" "Failed to process your request"],
            [(s.image, t)]⟩
        | .ok audio =>
          ⟨{ s with isProcessing := false }, [.aiResponse txt audio],
            [(s.image, t)]⟩
  | .audioStart =>
    ⟨{ s with isProcessing := false }, [], []⟩
  | .audioEnd =>
    ⟨s, [], []⟩
  | .clearImage =>
    ⟨{ s with image := none }, [.imageCleared], []⟩
  | .disconnect =>
    ⟨{ s with image := none, imageChunks := [] }, [], []⟩

/-- Run a sequence of client events in the `part_002` variant. -/
def runSeq (c : Collab) (s : Session) : List InEvent → StepResult
  | [] => ⟨s, [], []⟩
  | e :: es =>
    let r := step c s e
    let r' := runSeq c r.sess es
    ⟨r'.sess, r.out ++ r'.out, r.calls ++ r'.calls⟩

/-- The `part_002` disconnect handler, with the transcriber-close call made
explicit: `closeResult` is the outcome of `sessionData.transcriber.close()`.
Returns the final session state, the number of close attempts, and
`some msg` when an exception escaped the handler (never, in this variant:
the close call is guarded by a null check and wrapped in try/catch). -/
def disconnectRun (closeResult : Except String Unit) (s : Session) :
    Session × Nat × Option String :=
  if s.transcriber then
    match closeResult with
    | .ok _ =>
      ({ s with image := none, imageChunks := [] }, 1, none)
    | .error _ =>
      ({ s with image := none, imageChunks := [] }, 1, none)
  else
    ({ s with image := none, imageChunks := [] }, 0, none)

/-- The event sequence of a chunked image upload in `part_002`: every payload
in `ps` with `isLast = false`, then `lastChunk` with `isLast = true`. -/
def chunkEvents : List ByteBuf → ByteBuf → List InEvent
  | [], lastChunk => [.imageChunk (.ok lastChunk) true]
  | p :: ps, lastChunk => .imageChunk (.ok p) false :: chunkEvents ps lastChunk

theorem p2_chunk_upload (c : Collab) (ps : List ByteBuf)
    (lastChunk : ByteBuf) :
    ∀ s : Session,
      (runSeq c s (chunkEvents ps lastChunk)).sess.image
          = some ((s.imageChunks ++ ps ++ [lastChunk]).flatten)
      ∧ (runSeq c s (chunkEvents ps lastChunk)).sess.imageChunks = []
      ∧ (runSeq c s (chunkEvents ps lastChunk)).out
          = [.imageReceived ((s.imageChunks ++ ps ++ [lastChunk]).flatten).length] := by
  induction ps with
  | nil =>
    intro s
    simp [chunkEvents, runSeq, step]
  | cons p ps ih =>
    intro s
    have h := ih { s with imageChunks := s.imageChunks ++ [p] }
    simp only [chunkEvents, runSeq, step] at h ⊢
    simpa [List.append_assoc] using h

end P2

namespace Srv

/-- The `src/server.js` `text_message` handler run to completion.  A failure
of `AiProcessing` is caught by the handler's `catch`, which only calls
`console.error`: nothing is emitted to the client.  `textToAudio` in this
variant catches internally and falls back to an empty buffer, so it never
throws. -/
def textMessageRun (c : Collab) (img : Option ByteBuf) (m : String) :
    List OutEvent :=
  match c.aiProcessing img m with
  | .error _ => []
  | .ok txt =>
    match c.textToAudio txt with
    | .error _ => [.aiTextResponse txt, .aiResponseAudio []]
    | .ok audio => [.aiTextResponse txt, .aiResponseAudio audio]

/-- The `src/server.js` disconnect handler: `await transcriber.close()` with
no try/catch.  Returns the number of close attempts and `some msg` when the
close failure escaped the handler as an unhandled rejection. -/
def disconnectRun (closeResult : Except String Unit) : Nat × Option String :=
  match closeResult with
  | .ok _ => (1, none)
  | .error e => (1, some e)

/-- A suspended continuation of the `src/server.js` turn handler, which has
no busy flag; the handler is split at its `await` points.  `turnAi` is
suspended inside `AiProcessing`, `turnTts` inside `textToAudio`. -/
inductive Task where
  | turnAi (img : Option ByteBuf) (transcript : String)
  | turnTts (txt : String)
  deriving Repr, DecidableEq

/-- Interleaving-machine state for one `src/server.js` connection: the image
visible to the turn handler, the pending handler continuations, and the
events emitted so far. -/
structure MState where
  img : Option ByteBuf
  tasks : List Task
  out : List OutEvent
  deriving Repr, DecidableEq

def initM : MState := { img := none, tasks := [], out := [] }

/-- Scheduler steps: a turn event arrives (its synchronous prefix runs), or
the await the `i`-th pending continuation is suspended on resolves. -/
inductive MStep where
  | turnEvent (transcript : String)
  | resume (i : Nat)
  deriving Repr, DecidableEq

def resumeTask (c : Collab) (st : MState) (i : Nat) : Task → MState
  | .turnAi img t =>
    match c.aiProcessing img t with
    | .ok txt => { st with tasks := st.tasks.set i (.turnTts txt) }
    | .error _ => { st with tasks := st.tasks.eraseIdx i }
  | .turnTts txt =>
    match c.textToAudio txt with
    | .ok audio =>
      { st with
        tasks := st.tasks.eraseIdx i,
        out := st.out ++ [.aiResponseAudio audio] }
    | .error _ =>
      { st with
        tasks := st.tasks.eraseIdx i,
        out := st.out ++ [.aiResponseAudio []] }

/-- One micro-step of the `src/server.js` turn-handler machine.  A turn event
with a non-empty transcript starts `AiProcessing` immediately — there is no
busy check — creating a new pending continuation. -/
def mstep (c : Collab) (st : MState) : MStep → MState
  | .turnEvent t =>
    if t = "" then st
    else { st with tasks := st.tasks ++ [.turnAi st.img t] }
  | .resume i =>
    match st.tasks[i]? with
    | none => st
    | some tk => resumeTask c st i tk

def run (c : Collab) (steps : List MStep) : MState :=
  steps.foldl (mstep c) initM

/-- Global state of `src/server.js` with two connected sockets A and B:
`img` is the module-level image buffer shared by every connection, while the
`imageChunks` arrays are per-connection closure variables.  `callsA`/`callsB`
log the `AiProcessing` invocations each socket's `text_message` handler
makes (each reads the shared `img`). -/
structure GState where
  img : Option ByteBuf
  chunksA : List ByteBuf
  chunksB : List ByteBuf
  callsA : List AiCall
  callsB : List AiCall
  deriving Repr, DecidableEq

inductive Ev where
  | imageChunkA (chunk : ByteBuf) (isLast : Bool)
  | imageChunkB (chunk : ByteBuf) (isLast : Bool)
  | textMessageA (msg : String)
  | textMessageB (msg : String)
  deriving Repr, DecidableEq

def gstep (g : GState) : Ev → GState
  | .imageChunkA ch isLast =>
    let chunks := g.chunksA ++ [ch]
    if isLast then { g with img := some chunks.flatten, chunksA := [] }
    else { g with chunksA := chunks }
  | .imageChunkB ch isLast =>
    let chunks := g.chunksB ++ [ch]
    if isLast then { g with img := some chunks.flatten, chunksB := [] }
    else { g with chunksB := chunks }
  | .textMessageA m => { g with callsA := g.callsA ++ [(g.img, m)] }
  | .textMessageB m => { g with callsB := g.callsB ++ [(g.img, m)] }

def grun (es : List Ev) : GState :=
  es.foldl gstep
    { img := none, chunksA := [], chunksB := [], callsA := [], callsB := [] }

/-- Predicate selecting session A's events in a two-session trace. -/
def Ev.isA : Ev → Bool
  | .imageChunkA .. => true
  | .textMessageA _ => true
  | _ => false

end Srv

namespace P1M

/-- A suspended continuation of a `part_001` dispatcher handler, split at its
`await` points.  The `text_message` pipeline is `textAi` then `textTts`; the
`audio_full` pipeline is `audioTranscribing` (the upload/create/wait batch
chain), then `audioAi` (which reads `sessionData.image` when it starts, i.e.
when the transcription resolves), then `audioTts`. -/
inductive Task where
  | textAi (img : Option ByteBuf) (msg : String)
  | textTts (txt : String)
  | audioTranscribing (audio : ByteBuf)
  | audioAi (img : Option ByteBuf) (transcript : String)
  | audioTts (txt : String)
  deriving Repr, DecidableEq

/-- Interleaving-machine state for one `part_001` connection. -/
structure MState where
  sess : P1.SessionData
  tasks : List Task
  out : List OutEvent
  deriving Repr, DecidableEq

def initM : MState := { sess := P1.initSession, tasks := [], out := [] }

/-- Scheduler steps: a client event arrives (the handler's synchronous prefix
runs, up to its first `await`), or the await the `i`-th pending continuation
is suspended on resolves. -/
inductive MStep where
  | deliver (e : P1.InEvent)
  | resume (i : Nat)
  deriving Repr, DecidableEq

/-- Synchronous prefix of each `part_001` handler.  `text_message` and
`audio_full` check `isProcessing` and set it before their first `await`,
without an intervening suspension point; the other handlers have no `await`
at all and run to completion. -/
def deliver (st : MState) : P1.InEvent → MState
  | .imageChunk chunk isLast =>
    let chunks := st.sess.imageChunks ++ [chunk]
    if isLast then
      let full := chunks.flatten
      { st with
        sess := { st.sess with image := some full, imageChunks := [] },
        out := st.out ++ [.imageReceived full.length] }
    else
      { st with sess := { st.sess with imageChunks := chunks } }
  | .textMessage m =>
    if st.sess.isProcessing then
      { st with
        out := st.out ++ [.errorEvent "busy" "Still processing previous request"] }
    else
      { st with
        sess := { st.sess with isProcessing := true },
        tasks := st.tasks ++ [.textAi st.sess.image m] }
  | .audioFull audio =>
    if st.sess.isProcessing then
      { st with
        out := st.out ++ [.errorEvent "busy" "Still processing previous request"] }
    else
      { st with
        sess := { st.sess with isProcessing := true },
        tasks := st.tasks ++ [.audioTranscribing audio] }
  | .clearImage =>
    { st with
      sess := { st.sess with image := none },
      out := st.out ++ [.imageCleared] }
  | .disconnect =>
    { st with sess := { st.sess with image := none, imageChunks := [] } }

/-- Resume the `i`-th pending continuation.  Whenever a pipeline finishes —
with a response or with a caught error — the `finally` block resets
`isProcessing`. -/
def resumeTask (c : Collab) (st : MState) (i : Nat) : Task → MState
  | .textAi img msg =>
    match c.aiProcessing img msg with
    | .ok txt => { st with tasks := st.tasks.set i (.textTts txt) }
    | .error e =>
      { st with
        tasks := st.tasks.eraseIdx i,
        out := st.out ++ [.errorEvent "text_processing" e],
        sess := { st.sess with isProcessing := false } }
  | .textTts txt =>
    match c.textToAudio txt with
    | .ok audio =>
      { st with
        tasks := st.tasks.eraseIdx i,
        out := st.out ++ [.aiResponse txt audio],
        sess := { st.sess with isProcessing := false } }
    | .error e =>
      { st with
        tasks := st.tasks.eraseIdx i,
        out := st.out ++ [.errorEvent "text_processing" e],
        sess := { st.sess with isProcessing := false } }
  | .audioTranscribing audio =>
    match c.transcribeFull audio with
    | .ok t =>
      { st with tasks := st.tasks.set i (.audioAi st.sess.image (t.getD "")) }
    | .error e =>
      { st with
        tasks := st.tasks.eraseIdx i,
        out := st.out ++ [.errorEvent "full_audio" e],
        sess := { st.sess with isProcessing := false } }
  | .audioAi img t =>
    match c.aiProcessing img t with
    | .ok txt => { st with tasks := st.tasks.set i (.audioTts txt) }
    | .error e =>
      { st with
        tasks := st.tasks.eraseIdx i,
        out := st.out ++ [.errorEvent "full_audio" e],
        sess := { st.sess with isProcessing := false } }
  | .audioTts txt =>
    match c.textToAudio txt with
    | .ok audio =>
      { st with
        tasks := st.tasks.eraseIdx i,
        out := st.out ++ [.aiResponse txt audio],
        sess := { st.sess with isProcessing := false } }
    | .error e =>
      { st with
        tasks := st.tasks.eraseIdx i,
        out := st.out ++ [.errorEvent "full_audio" e],
        sess := { st.sess with isProcessing := false } }

def mstep (c : Collab) (st : MState) : MStep → MState
  | .deliver e => deliver st e
  | .resume i =>
    match st.tasks[i]? with
    | none => st
    | some tk => resumeTask c st i tk

def run (c : Collab) (steps : List MStep) : MState :=
  steps.foldl (mstep c) initM

/-- Busy-flag invariant of `part_001`: `isProcessing` is set exactly while
one dispatcher pipeline is pending, and there is never more than one. -/
def Inv (st : MState) : Prop :=
  (st.sess.isProcessing = false ∧ st.tasks = []) ∨
  (st.sess.isProcessing = true ∧ ∃ tk, st.tasks = [tk])

theorem inv_init : Inv initM := Or.inl ⟨rfl, rfl⟩

theorem inv_mstep (c : Collab) (st : MState) (m : MStep) (h : Inv st) :
    Inv (mstep c st m) := by
  rcases h with ⟨hp, ht⟩ | ⟨hp, tk, ht⟩
  · cases m with
    | deliver e =>
      cases e with
      | imageChunk chunk isLast =>
        by_cases hl : isLast = true <;>
          simp [mstep, deliver, Inv, hp, ht, hl]
      | textMessage m' => simp [mstep, deliver, Inv, hp, ht]
      | audioFull a => simp [mstep, deliver, Inv, hp, ht]
      | clearImage => simp [mstep, deliver, Inv, hp, ht]
      | disconnect => simp [mstep, deliver, Inv, hp, ht]
    | resume i => simp [mstep, ht, Inv, hp]
  · cases m with
    | deliver e =>
      cases e with
      | imageChunk chunk isLast =>
        by_cases hl : isLast = true <;>
          simp [mstep, deliver, Inv, hp, ht, hl]
      | textMessage m' => simp [mstep, deliver, Inv, hp, ht]
      | audioFull a => simp [mstep, deliver, Inv, hp, ht]
      | clearImage => simp [mstep, deliver, Inv, hp, ht]
      | disconnect => simp [mstep, deliver, Inv, hp, ht]
    | resume i =>
      cases i with
      | zero =>
        have h0 : st.tasks[0]? = some tk := by simp [ht]
        cases tk with
        | textAi img msg =>
          cases hAi : c.aiProcessing img msg with
          | ok txt => simp [mstep, h0, resumeTask, hAi, Inv, hp, ht]
          | error e => simp [mstep, h0, resumeTask, hAi, Inv, hp, ht]
        | textTts txt =>
          cases hTts : c.textToAudio txt with
          | ok audio => simp [mstep, h0, resumeTask, hTts, Inv, hp, ht]
          | error e => simp [mstep, h0, resumeTask, hTts, Inv, hp, ht]
        | audioTranscribing audio =>
          cases hTr : c.transcribeFull audio with
          | ok t => simp [mstep, h0, resumeTask, hTr, Inv, hp, ht]
          | error e => simp [mstep, h0, resumeTask, hTr, Inv, hp, ht]
        | audioAi img t =>
          cases hAi : c.aiProcessing img t with
          | ok txt => simp [mstep, h0, resumeTask, hAi, Inv, hp, ht]
          | error e => simp [mstep, h0, resumeTask, hAi, Inv, hp, ht]
        | audioTts txt =>
          cases hTts : c.textToAudio txt with
          | ok audio => simp [mstep, h0, resumeTask, hTts, Inv, hp, ht]
          | error e => simp [mstep, h0, resumeTask, hTts, Inv, hp, ht]
      | succ n => simp [mstep, ht, Inv, hp]

theorem inv_run (c : Collab) (steps : List MStep) : Inv (run c steps) := by
  suffices h : ∀ st, Inv st → Inv (steps.foldl (mstep c) st) from
    h initM inv_init
  induction steps with
  | nil => intro st h; exact h
  | cons m ms ih => intro st h; exact ih _ (inv_mstep c st m h)

end P1M

namespace P2M

/-- A suspended continuation of a `part_002` dispatcher handler, split at its
`await` points; both pipelines read `sessionData.image` synchronously when
the handler starts.  `textAi`/`textTts` belong to `text_message`,
`turnAi`/`turnTts` to a transcription turn. -/
inductive Task where
  | textAi (img : Option ByteBuf) (msg : String)
  | textTts (txt : String)
  | turnAi (img : Option ByteBuf) (transcript : String)
  | turnTts (txt : String)
  deriving Repr, DecidableEq

/-- Interleaving-machine state for one `part_002` connection. -/
structure MState where
  sess : P2.Session
  tasks : List Task
  out : List OutEvent
  deriving Repr, DecidableEq

def initM : MState := { sess := P2.initSession, tasks := [], out := [] }

/-- The deliverable client events: the claim's enumerated inbound events
(`text_message` and transcription turns — `part_002` has no `audio_full`
handler) together with the `part_002` handlers that never touch the busy
flag.  The `audio_start` handler, which resets the flag, is not among the
claim's enumerated events and lies outside this alphabet. -/
inductive MEv where
  | imageChunk (chunk : Except String ByteBuf) (isLast : Bool)
  | textMessage (msg : String)
  | turn (transcript : String)
  | audioEnd
  | clearImage
  | disconnect
  deriving Repr, DecidableEq

/-- Scheduler steps: a client event arrives (the handler's synchronous prefix
runs, up to its first `await`), or the await the `i`-th pending continuation
is suspended on resolves. -/
inductive MStep where
  | deliver (e : MEv)
  | resume (i : Nat)
  deriving Repr, DecidableEq

/-- Synchronous prefix of each `part_002` handler: `text_message` and the
turn callback check `isProcessing` and set it before their first `await`,
without an intervening suspension point; the other handlers here have no
`await` touching session state and run to completion. -/
def deliver (st : MState) : MEv → MState
  | .imageChunk data isLast =>
    match data with
    | .error e => { st with out := st.out ++ [.errorEvent "image_upload" e] }
    | .ok chunk =>
      let chunks := st.sess.imageChunks ++ [chunk]
      if isLast then
        let full := chunks.flatten
        { st with
          sess := { st.sess with image := some full, imageChunks := [] },
          out := st.out ++ [.imageReceived full.length] }
      else
        { st with sess := { st.sess with imageChunks := chunks } }
  | .textMessage m =>
    if st.sess.isProcessing then
      { st with
        out := st.out ++ [.errorEvent "busy" "Still processing previous request"] }
    else
      { st with
        sess := { st.sess with isProcessing := true },
        tasks := st.tasks ++ [.textAi st.sess.image m] }
  | .turn t =>
    if t = "" ∨ st.sess.isProcessing then st
    else
      { st with
        sess := { st.sess with isProcessing := true },
        tasks := st.tasks ++ [.turnAi st.sess.image t] }
  | .audioEnd => st
  | .clearImage =>
    { st with
      sess := { st.sess with image := none },
      out := st.out ++ [.imageCleared] }
  | .disconnect =>
    { st with sess := { st.sess with image := none, imageChunks := [] } }

/-- Resume the `i`-th pending continuation.  Whenever a pipeline finishes —
with a response or with a caught error — the `finally` block resets
`isProcessing`. -/
def resumeTask (c : Collab) (st : MState) (i : Nat) : Task → MState
  | .textAi img msg =>
    match c.aiProcessing img msg with
    | .ok txt => { st with tasks := st.tasks.set i (.textTts txt) }
    | .error _ =>
      { st with
        tasks := st.tasks.eraseIdx i,
        out := st.out ++
          [.errorEvent "text_processing" "Failed to process your message"],
        sess := { st.sess with isProcessing := false } }
  | .textTts txt =>
    match c.textToAudio txt with
    | .ok audio =>
      { st with
        tasks := st.tasks.eraseIdx i,
        out := st.out ++ [.aiResponse txt audio],
        sess := { st.sess with isProcessing := false } }
    | .error _ =>
      { st with
        tasks := st.tasks.eraseIdx i,
        out := st.out ++
          [.errorEvent "text_processing" "Failed to process your message"],
        sess := { st.sess with isProcessing := false } }
  | .turnAi img t =>
    match c.aiProcessing img t with
    | .ok txt => { st with tasks := st.tasks.set i (.turnTts txt) }
    | .error _ =>
      { st with
        tasks := st.tasks.eraseIdx i,
        out := st.out ++
          [.errorEvent "ai_processing" "Failed to process your request"],
        sess := { st.sess with isProcessing := false } }
  | .turnTts txt =>
    match c.textToAudio txt with
    | .ok audio =>
      { st with
        tasks := st.tasks.eraseIdx i,
        out := st.out ++ [.aiResponse txt audio],
        sess := { st.sess with isProcessing := false } }
    | .error _ =>
      { st with
        tasks := st.tasks.eraseIdx i,
        out := st.out ++
          [.errorEvent "ai_processing" "Failed to process your request"],
        sess := { st.sess with isProcessing := false } }

def mstep (c : Collab) (st : MState) : MStep → MState
  | .deliver e => deliver st e
  | .resume i =>
    match st.tasks[i]? with
    | none => st
    | some tk => resumeTask c st i tk

def run (c : Collab) (steps : List MStep) : MState :=
  steps.foldl (mstep c) initM

/-- Busy-flag invariant of `part_002` over the claim's enumerated events:
`isProcessing` is set exactly while one dispatcher pipeline is pending, and
there is never more than one. -/
def Inv (st : MState) : Prop :=
  (st.sess.isProcessing = false ∧ st.tasks = []) ∨
  (st.sess.isProcessing = true ∧ ∃ tk, st.tasks = [tk])

theorem p2m_inv_init : Inv initM := Or.inl ⟨rfl, rfl⟩

theorem p2m_inv_mstep (c : Collab) (st : MState) (m : MStep) (h : Inv st) :
    Inv (mstep c st m) := by
  rcases h with ⟨hp, ht⟩ | ⟨hp, tk, ht⟩
  · cases m with
    | deliver e =>
      cases e with
      | imageChunk data isLast =>
        cases data with
        | error e' => simp [mstep, deliver, Inv, hp, ht]
        | ok chunk =>
          by_cases hl : isLast = true <;>
            simp [mstep, deliver, Inv, hp, ht, hl]
      | textMessage m' => simp [mstep, deliver, Inv, hp, ht]
      | turn t =>
        by_cases h0 : t = "" <;> simp [mstep, deliver, Inv, hp, ht, h0]
      | audioEnd => simp [mstep, deliver, Inv, hp, ht]
      | clearImage => simp [mstep, deliver, Inv, hp, ht]
      | disconnect => simp [mstep, deliver, Inv, hp, ht]
    | resume i => simp [mstep, ht, Inv, hp]
  · cases m with
    | deliver e =>
      cases e with
      | imageChunk data isLast =>
        cases data with
        | error e' => simp [mstep, deliver, Inv, hp, ht]
        | ok chunk =>
          by_cases hl : isLast = true <;>
            simp [mstep, deliver, Inv, hp, ht, hl]
      | textMessage m' => simp [mstep, deliver, Inv, hp, ht]
      | turn t =>
        by_cases h0 : t = "" <;> simp [mstep, deliver, Inv, hp, ht, h0]
      | audioEnd => simp [mstep, deliver, Inv, hp, ht]
      | clearImage => simp [mstep, deliver, Inv, hp, ht]
      | disconnect => simp [mstep, deliver, Inv, hp, ht]
    | resume i =>
      cases i with
      | zero =>
        have h0 : st.tasks[0]? = some tk := by simp [ht]
        cases tk with
        | textAi img msg =>
          cases hAi : c.aiProcessing img msg with
          | ok txt => simp [mstep, h0, resumeTask, hAi, Inv, hp, ht]
          | error e => simp [mstep, h0, resumeTask, hAi, Inv, hp, ht]
        | textTts txt =>
          cases hT : c.textToAudio txt with
          | ok audio => simp [mstep, h0, resumeTask, hT, Inv, hp, ht]
          | error e => simp [mstep, h0, resumeTask, hT, Inv, hp, ht]
        | turnAi img t =>
          cases hAi : c.aiProcessing img t with
          | ok txt => simp [mstep, h0, resumeTask, hAi, Inv, hp, ht]
          | error e => simp [mstep, h0, resumeTask, hAi, Inv, hp, ht]
        | turnTts txt =>
          cases hT : c.textToAudio txt with
          | ok audio => simp [mstep, h0, resumeTask, hT, Inv, hp, ht]
          | error e => simp [mstep, h0, resumeTask, hT, Inv, hp, ht]
      | succ n => simp [mstep, ht, Inv, hp]

theorem p2m_inv_run (c : Collab) (steps : List MStep) : Inv (run c steps) := by
  suffices h : ∀ st, Inv st → Inv (steps.foldl (mstep c) st) from
    h initM p2m_inv_init
  induction steps with
  | nil => intro st h; exact h
  | cons m ms ih => intro st h; exact ih _ (p2m_inv_mstep c st m h)

end P2M

namespace P1two

/-- Two concurrent `part_001` sessions A and B: every piece of mutable state
lives inside one session's own `sessionData`; there is no module-level
buffer. -/
structure GState where
  sessA : P1.SessionData
  sessB : P1.SessionData
  outA : List OutEvent
  outB : List OutEvent
  callsA : List AiCall
  callsB : List AiCall
  deriving Repr, DecidableEq

/-- An interleaved two-session trace: each event arrives on socket A or B. -/
inductive Ev where
  | onA (e : P1.InEvent)
  | onB (e : P1.InEvent)
  deriving Repr, DecidableEq

def gstep (c : Collab) (g : GState) : Ev → GState
  | .onA e =>
    let r := P1.step c g.sessA e
    { g with
      sessA := r.sess,
      outA := g.outA ++ r.out,
      callsA := g.callsA ++ r.calls }
  | .onB e =>
    let r := P1.step c g.sessB e
    { g with
      sessB := r.sess,
      outB := g.outB ++ r.out,
      callsB := g.callsB ++ r.calls }

def initG : GState :=
  { sessA := P1.initSession, sessB := P1.initSession,
    outA := [], outB := [], callsA := [], callsB := [] }

def grunFrom (c : Collab) (g : GState) (es : List Ev) : GState :=
  es.foldl (gstep c) g

def grun (c : Collab) (es : List Ev) : GState := grunFrom c initG es

/-- The events of session A within an interleaved two-session trace. -/
def toA : Ev → Option P1.InEvent
  | .onA e => some e
  | .onB _ => none

theorem grunFrom_projA (c : Collab) (es : List Ev) :
    ∀ g : GState,
      (grunFrom c g es).sessA
          = (P1.runSeq c g.sessA (es.filterMap toA)).sess
      ∧ (grunFrom c g es).outA
          = g.outA ++ (P1.runSeq c g.sessA (es.filterMap toA)).out
      ∧ (grunFrom c g es).callsA
          = g.callsA ++ (P1.runSeq c g.sessA (es.filterMap toA)).calls := by
  induction es with
  | nil =>
    intro g
    simp [grunFrom, P1.runSeq]
  | cons e es ih =>
    intro g
    cases e with
    | onA e' =>
      have h := ih (gstep c g (.onA e'))
      simp only [grunFrom, List.foldl, List.filterMap_cons, toA,
        P1.runSeq, gstep] at h ⊢
      exact ⟨h.1, by simp [h.2.1], by simp [h.2.2]⟩
    | onB e' =>
      have h := ih (gstep c g (.onB e'))
      simp only [grunFrom, List.foldl, List.filterMap_cons, toA,
        P1.runSeq, gstep] at h ⊢
      exact h

end P1two

namespace P2two

/-- Two concurrent `part_002` sessions A and B: every piece of mutable state
lives inside one session's own `sessionData`; there is no module-level
buffer. -/
structure GState where
  sessA : P2.Session
  sessB : P2.Session
  outA : List OutEvent
  outB : List OutEvent
  callsA : List AiCall
  callsB : List AiCall
  deriving Repr, DecidableEq

/-- An interleaved two-session trace: each event arrives on socket A or B. -/
inductive Ev where
  | onA (e : P2.InEvent)
  | onB (e : P2.InEvent)
  deriving Repr, DecidableEq

def gstep (c : Collab) (g : GState) : Ev → GState
  | .onA e =>
    let r := P2.step c g.sessA e
    { g with
      sessA := r.sess,
      outA := g.outA ++ r.out,
      callsA := g.callsA ++ r.calls }
  | .onB e =>
    let r := P2.step c g.sessB e
    { g with
      sessB := r.sess,
      outB := g.outB ++ r.out,
      callsB := g.callsB ++ r.calls }

def initG : GState :=
  { sessA := P2.initSession, sessB := P2.initSession,
    outA := [], outB := [], callsA := [], callsB := [] }

def grunFrom (c : Collab) (g : GState) (es : List Ev) : GState :=
  es.foldl (gstep c) g

def grun (c : Collab) (es : List Ev) : GState := grunFrom c initG es

/-- The events of session A within an interleaved two-session trace. -/
def toA : Ev → Option P2.InEvent
  | .onA e => some e
  | .onB _ => none

theorem p2two_projA (c : Collab) (es : List Ev) :
    ∀ g : GState,
      (grunFrom c g es).sessA
          = (P2.runSeq c g.sessA (es.filterMap toA)).sess
      ∧ (grunFrom c g es).outA
          = g.outA ++ (P2.runSeq c g.sessA (es.filterMap toA)).out
      ∧ (grunFrom c g es).callsA
          = g.callsA ++ (P2.runSeq c g.sessA (es.filterMap toA)).calls := by
  induction es with
  | nil =>
    intro g
    simp [grunFrom, P2.runSeq]
  | cons e es ih =>
    intro g
    cases e with
    | onA e' =>
      have h := ih (gstep c g (.onA e'))
      simp only [grunFrom, List.foldl, List.filterMap_cons, toA,
        P2.runSeq, gstep] at h ⊢
      exact ⟨h.1, by simp [h.2.1], by simp [h.2.2]⟩
    | onB e' =>
      have h := ih (gstep c g (.onB e'))
      simp only [grunFrom, List.foldl, List.filterMap_cons, toA,
        P2.runSeq, gstep] at h ⊢
      exact h

end P2two

/-- The `part_001` image_chunk handler including its catch path: the payload
is the result of `Buffer.from(data.chunk)`, and `.error` models a malformed
chunk on which that conversion throws — the handler's try/catch surfaces it
as an image_upload error. -/
def P1.imageChunkRun (s : P1.SessionData) (data : Except String ByteBuf)
    (isLast : Bool) : P1.StepResult :=
  match data with
  | .error e => ⟨s, [.errorEvent "image_upload" e], []⟩
  | .ok chunk =>
    let chunks := s.imageChunks ++ [chunk]
    if isLast then
      let full := chunks.flatten
      ⟨{ s with image := some full, imageChunks := [] },
        [.imageReceived full.length], []⟩
    else
      ⟨{ s with imageChunks := chunks }, [], []⟩

theorem P1.p1_step_flag_false (c : Collab) (s : P1.SessionData)
    (e : P1.InEvent) (h : s.isProcessing = false) :
    (P1.step c s e).sess.isProcessing = false := by
  cases e with
  | imageChunk chunk isLast =>
    by_cases hl : isLast = true <;> simp [P1.step, h, hl]
  | textMessage m => simp [P1.step, h]
  | audioFull a =>
    cases hTr : c.transcribeFull a <;> simp [P1.step, h, hTr]
  | clearImage => simp [P1.step, h]
  | disconnect => simp [P1.step, h]

theorem P1.p1_runSeq_flag_false (c : Collab) (es : List P1.InEvent) :
    ∀ s : P1.SessionData, s.isProcessing = false →
      (P1.runSeq c s es).sess.isProcessing = false := by
  induction es with
  | nil => intro s h; simpa [P1.runSeq] using h
  | cons e es ih =>
    intro s h
    simpa [P1.runSeq] using ih _ (P1.p1_step_flag_false c s e h)

theorem P2.p2_step_flag_false (c : Collab) (s : P2.Session)
    (e : P2.InEvent) (h : s.isProcessing = false) :
    (P2.step c s e).sess.isProcessing = false := by
  cases e with
  | imageChunk data isLast =>
    cases data with
    | error e' => simp [P2.step, h]
    | ok chunk => by_cases hl : isLast = true <;> simp [P2.step, h, hl]
  | textMessage m =>
    cases hAi : c.aiProcessing s.image m with
    | error e' => simp [P2.step, h, hAi]
    | ok txt => cases hT : c.textToAudio txt <;> simp [P2.step, h, hAi, hT]
  | turn t =>
    by_cases h0 : t = ""
    · simp [P2.step, h, h0]
    · cases hAi : c.aiProcessing s.image t with
      | error e' => simp [P2.step, h, h0, hAi]
      | ok txt =>
        cases hT : c.textToAudio txt <;> simp [P2.step, h, h0, hAi, hT]
  | audioStart => simp [P2.step, h]
  | audioEnd => simp [P2.step, h]
  | clearImage => simp [P2.step, h]
  | disconnect => simp [P2.step, h]

theorem P2.p2_runSeq_flag_false (c : Collab) (es : List P2.InEvent) :
    ∀ s : P2.Session, s.isProcessing = false →
      (P2.runSeq c s es).sess.isProcessing = false := by
  induction es with
  | nil => intro s h; simpa [P2.runSeq] using h
  | cons e es ih =>
    intro s h
    simpa [P2.runSeq] using ih _ (P2.p2_step_flag_false c s e h)

/-- C1: for every session and every sequence of image_chunk events whose last
element has isLast=true, the session's image afterwards equals the byte-wise
concatenation of all chunk payloads in arrival order, and an image_received
acknowledgement is emitted whose size field equals the byte length of that
concatenation — in both the part_001 and part_002 variants. -/
theorem c1_image_reassembly :
    (∀ (c : Collab) (s : P1.SessionData) (ps : List ByteBuf)
        (lastChunk : ByteBuf), s.imageChunks = [] →
      (P1.runSeq c s (P1.chunkEvents ps lastChunk)).sess.image
          = some ((ps ++ [lastChunk]).flatten)
      ∧ (P1.runSeq c s (P1.chunkEvents ps lastChunk)).out
          = [OutEvent.imageReceived ((ps ++ [lastChunk]).flatten).length])
    ∧
    (∀ (c : Collab) (s : P2.Session) (ps : List ByteBuf)
        (lastChunk : ByteBuf), s.imageChunks = [] →
      (P2.runSeq c s (P2.chunkEvents ps lastChunk)).sess.image
          = some ((ps ++ [lastChunk]).flatten)
      ∧ (P2.runSeq c s (P2.chunkEvents ps lastChunk)).out
          = [OutEvent.imageReceived ((ps ++ [lastChunk]).flatten).length]) := by
  constructor
  · intro c s ps lastChunk h
    have h' := P1.p1_chunk_upload c ps lastChunk s
    rw [h] at h'
    exact ⟨by simpa using h'.1, by simpa using h'.2.2⟩
  · intro c s ps lastChunk h
    have h' := P2.p2_chunk_upload c ps lastChunk s
    rw [h] at h'
    exact ⟨by simpa using h'.1, by simpa using h'.2.2⟩

/-- Witness for C1 at the spec's example: chunk "AB" with isLast=false then
chunk "CD" with isLast=true yield the image "ABCD" and an image_received
acknowledgement of size 4. -/
theorem c1_image_reassembly_witness :
    P1.initSession.imageChunks = []
    ∧ (P1.runSeq okCollab P1.initSession
          (P1.chunkEvents [[65, 66]] [67, 68])).sess.image
        = some [65, 66, 67, 68]
    ∧ (P1.runSeq okCollab P1.initSession
          (P1.chunkEvents [[65, 66]] [67, 68])).out
        = [OutEvent.imageReceived 4] := by
  have h := c1_image_reassembly.1 okCollab P1.initSession [[65, 66]] [67, 68]
    rfl
  exact ⟨rfl, by simpa using h.1, by simpa using h.2⟩

/-- C3: while a session is busy (isProcessing set), a newly arriving
text_message or audio_full event emits exactly one error of type busy and has
no other observable effect: the session state is unchanged and no
collaborator is invoked — in part_001, and likewise for text_message in
part_002. -/
theorem c3_busy_rejection (c : Collab) (s1 : P1.SessionData)
    (s2 : P2.Session) (m : String) (audio : ByteBuf)
    (h1 : s1.isProcessing = true) (h2 : s2.isProcessing = true) :
    P1.step c s1 (.textMessage m)
        = ⟨s1, [.errorEvent "busy" "Still processing previous request"], []⟩
    ∧ P1.step c s1 (.audioFull audio)
        = ⟨s1, [.errorEvent "busy" "Still processing previous request"], []⟩
    ∧ P2.step c s2 (.textMessage m)
        = ⟨s2, [.errorEvent "busy" "Still processing previous request"], []⟩ := by
  refine ⟨?_, ?_, ?_⟩ <;> simp [P1.step, P2.step, h1, h2]

/-- Witness for C3: a concrete busy part_001 session rejects a text_message
with a single busy error and is left unchanged. -/
theorem c3_busy_rejection_witness :
    (⟨none, [], true⟩ : P1.SessionData).isProcessing = true
    ∧ P1.step okCollab ⟨none, [], true⟩ (.textMessage "hi")
        = ⟨⟨none, [], true⟩,
            [.errorEvent "busy" "Still processing previous request"], []⟩ := by
  refine ⟨rfl, ?_⟩
  exact (c3_busy_rejection okCollab ⟨none, [], true⟩ ⟨none, [], true, true⟩
    "hi" [0] rfl rfl).1

/-- C4: after a dispatcher invocation completes — by success or by any
failure of the transcription, AI-processing or speech-synthesis step — the
session's busy flag is false again: in the part_001 interleaving machine,
whenever no pipeline is pending the flag is down and a newly delivered
text_message or audio_full is not rejected as busy (it emits nothing and
starts a fresh pipeline); and in part_002 the text_message and turn handlers
leave the flag false on every non-busy path, success or failure. -/
theorem c4_busy_reset (c : Collab) (steps : List P1M.MStep)
    (m : String) (audio : ByteBuf) (s2 : P2.Session) (t : String)
    (hdone : (P1M.run c steps).tasks = [])
    (h2 : s2.isProcessing = false) :
    (P1M.run c steps).sess.isProcessing = false
    ∧ (P1M.mstep c (P1M.run c steps) (.deliver (.textMessage m))).out
        = (P1M.run c steps).out
    ∧ (P1M.mstep c (P1M.run c steps)
          (.deliver (.textMessage m))).tasks.length = 1
    ∧ (P1M.mstep c (P1M.run c steps) (.deliver (.audioFull audio))).out
        = (P1M.run c steps).out
    ∧ (P2.step c s2 (.textMessage m)).sess.isProcessing = false
    ∧ (P2.step c s2 (.turn t)).sess.isProcessing = false := by
  have hflag : (P1M.run c steps).sess.isProcessing = false := by
    rcases P1M.inv_run c steps with ⟨h, _⟩ | ⟨_, tk, htk⟩
    · exact h
    · rw [hdone] at htk; cases htk
  refine ⟨hflag, ?_, ?_, ?_,
    P2.p2_step_flag_false c s2 _ h2, P2.p2_step_flag_false c s2 _ h2⟩
  · simp [P1M.mstep, P1M.deliver, hflag]
  · simp [P1M.mstep, P1M.deliver, hflag, hdone]
  · simp [P1M.mstep, P1M.deliver, hflag]

/-- Witness for C4: a concrete text_message pipeline that has been delivered
and fully resumed leaves no pending task, and the flag is indeed observed
false afterwards. -/
theorem c4_busy_reset_witness :
    (P1M.run okCollab
        [.deliver (.textMessage "a"), .resume 0, .resume 0]).tasks = []
    ∧ P2.initSession.isProcessing = false
    ∧ (P1M.run okCollab
        [.deliver (.textMessage "a"), .resume 0, .resume 0]).sess.isProcessing
        = false := by
  refine ⟨rfl, rfl, ?_⟩
  exact (c4_busy_reset okCollab
    [.deliver (.textMessage "a"), .resume 0, .resume 0]
    "m" [0] P2.initSession "t" rfl rfl).1

/-- C10: clear_image sets the session image to null, leaves the pending
image-chunk sequence untouched, and a later terminal chunk still folds in the
chunks received before the clear_image — in part_001 and part_002. -/
theorem c10_clear_image_frame (c : Collab) (s : P1.SessionData)
    (s2 : P2.Session) (ch : ByteBuf) :
    (P1.step c s .clearImage).sess.image = none
    ∧ (P1.step c s .clearImage).sess.imageChunks = s.imageChunks
    ∧ (P1.step c (P1.step c s .clearImage).sess
          (.imageChunk ch true)).sess.image
        = some ((s.imageChunks ++ [ch]).flatten)
    ∧ (P2.step c s2 .clearImage).sess.image = none
    ∧ (P2.step c s2 .clearImage).sess.imageChunks = s2.imageChunks
    ∧ (P2.step c (P2.step c s2 .clearImage).sess
          (.imageChunk (.ok ch) true)).sess.image
        = some ((s2.imageChunks ++ [ch]).flatten) := by
  refine ⟨?_, ?_, ?_, ?_, ?_, ?_⟩ <;> simp [P1.step, P2.step]

/-- C2 counterexample: the src/server.js turn handler has no busy flag, so
two turn events whose AiProcessing calls are both still awaiting leave two
requests in flight for the same session — it is false that every interleaving
of event arrivals and suspension points keeps at most one AI-processing
request in flight. -/
theorem c2_single_flight_cex :
    ¬ (∀ steps : List Srv.MStep,
          (Srv.run okCollab steps).tasks.length ≤ 1) := by
  intro h
  have h2 := h [.turnEvent "a", .turnEvent "b"]
  simp [Srv.run, Srv.mstep, Srv.initM] at h2

/-- C2 amended: at most one AI-processing request is in flight per session
at any time — in part_001 (text_message/audio_full) and in part_002
(text_message/turn) over the claim's enumerated inbound events, because both
variants check and set the busy flag synchronously before the handler's
first await, so every interleaving of event arrivals and resumptions keeps
at most one dispatcher pipeline, hence at most one AiProcessing/textToAudio
call, in flight; the src/server.js turn and text handlers lack the flag
entirely and allow concurrent requests (see the counterexample). -/
theorem c2_single_flight_amended :
    (∀ (c : Collab) (steps : List P1M.MStep),
      (P1M.run c steps).tasks.length ≤ 1)
    ∧ (∀ (c : Collab) (steps : List P2M.MStep),
      (P2M.run c steps).tasks.length ≤ 1) := by
  constructor
  · intro c steps
    rcases P1M.inv_run c steps with ⟨_, h⟩ | ⟨_, tk, h⟩ <;> simp [h]
  · intro c steps
    rcases P2M.p2m_inv_run c steps with ⟨_, h⟩ | ⟨_, tk, h⟩ <;> simp [h]

/-- C5 counterexample: src/server.js keeps the reassembled image in the
module-level `img` shared by every socket, so a session's dispatcher can
receive another session's image: removing session B's events from a trace
changes the AiProcessing calls made on session A's behalf. -/
theorem c5_no_shared_state_cex :
    ¬ (∀ es : List Srv.Ev,
          (Srv.grun es).callsA = (Srv.grun (es.filter Srv.Ev.isA)).callsA) := by
  intro h
  exact absurd
    (h [.imageChunkA [1] true, .imageChunkB [2] true, .textMessageA "hi"])
    (by decide)

/-- C5 amended: part_001 and part_002 keep all mutable state inside the
per-connection sessionData, so sessions cannot interfere: in either variant,
two interleaved two-session traces that agree on session A's events produce
identical state, emitted events and AiProcessing calls for A, regardless of
session B's events — in particular the image A's dispatcher receives is
always the one uploaded on A.  src/server.js instead shares the module-level
image buffer across sockets (see the counterexample). -/
theorem c5_session_isolation_amended :
    (∀ (c : Collab) (es es' : List P1two.Ev),
      es.filterMap P1two.toA = es'.filterMap P1two.toA →
      (P1two.grun c es).sessA = (P1two.grun c es').sessA
      ∧ (P1two.grun c es).outA = (P1two.grun c es').outA
      ∧ (P1two.grun c es).callsA = (P1two.grun c es').callsA)
    ∧ (∀ (c : Collab) (es es' : List P2two.Ev),
      es.filterMap P2two.toA = es'.filterMap P2two.toA →
      (P2two.grun c es).sessA = (P2two.grun c es').sessA
      ∧ (P2two.grun c es).outA = (P2two.grun c es').outA
      ∧ (P2two.grun c es).callsA = (P2two.grun c es').callsA) := by
  constructor
  · intro c es es' h
    have h1 := P1two.grunFrom_projA c es P1two.initG
    have h2 := P1two.grunFrom_projA c es' P1two.initG
    rw [h] at h1
    simp only [P1two.grun]
    exact ⟨h1.1.trans h2.1.symm, h1.2.1.trans h2.2.1.symm,
      h1.2.2.trans h2.2.2.symm⟩
  · intro c es es' h
    have h1 := P2two.p2two_projA c es P2two.initG
    have h2 := P2two.p2two_projA c es' P2two.initG
    rw [h] at h1
    simp only [P2two.grun]
    exact ⟨h1.1.trans h2.1.symm, h1.2.1.trans h2.2.1.symm,
      h1.2.2.trans h2.2.2.symm⟩

/-- Witness for C5 amended: in each variant, a trace with an interleaved
upload by session B gives session A the same AiProcessing calls as the trace
without B's upload. -/
theorem c5_session_isolation_amended_witness :
    ([P1two.Ev.onA (.textMessage "m"),
      P1two.Ev.onB (.imageChunk [2] true)].filterMap P1two.toA
        = [P1two.Ev.onA (.textMessage "m")].filterMap P1two.toA)
    ∧ (P1two.grun okCollab
          [.onA (.textMessage "m"), .onB (.imageChunk [2] true)]).callsA
        = (P1two.grun okCollab [.onA (.textMessage "m")]).callsA
    ∧ ([P2two.Ev.onA (.textMessage "m"),
        P2two.Ev.onB (.imageChunk (.ok [2]) true)].filterMap P2two.toA
          = [P2two.Ev.onA (.textMessage "m")].filterMap P2two.toA)
    ∧ (P2two.grun okCollab
          [.onA (.textMessage "m"), .onB (.imageChunk (.ok [2]) true)]).callsA
        = (P2two.grun okCollab [.onA (.textMessage "m")]).callsA := by
  refine ⟨rfl, ?_, rfl, ?_⟩
  · exact (c5_session_isolation_amended.1 okCollab
      [.onA (.textMessage "m"), .onB (.imageChunk [2] true)]
      [.onA (.textMessage "m")] rfl).2.2
  · exact (c5_session_isolation_amended.2 okCollab
      [.onA (.textMessage "m"), .onB (.imageChunk (.ok [2]) true)]
      [.onA (.textMessage "m")] rfl).2.2

/-- C6 counterexample: it is false that only the terminal-chunk fold empties
the pending chunk sequence — in part_001 the disconnect handler also clears a
non-empty pendingImageChunks. -/
theorem c6_pending_clear_cex :
    ¬ (∀ (c : Collab) (s : P1.SessionData) (e : P1.InEvent),
          s.imageChunks ≠ [] →
          (P1.step c s e).sess.imageChunks = [] →
          ∃ ch, e = P1.InEvent.imageChunk ch true) := by
  intro h
  rcases h okCollab ⟨none, [[0]], false⟩ .disconnect (by simp)
      (by simp [P1.step]) with ⟨ch, hch⟩
  exact P1.InEvent.noConfusion hch

/-- C6 amended: the pending image-chunk sequence is cleared exactly by the
terminal-chunk fold and by the disconnect teardown: a terminal chunk and a
disconnect always empty it, a non-terminal chunk never does (it appends), and
text_message, audio_full and clear_image leave it unchanged; part_002's
disconnect clears it likewise. -/
theorem c6_pending_clear_amended (c : Collab) (s : P1.SessionData)
    (s2 : P2.Session) (ch : ByteBuf) (m : String) (audio : ByteBuf) :
    (P1.step c s (.imageChunk ch true)).sess.imageChunks = []
    ∧ (P1.step c s .disconnect).sess.imageChunks = []
    ∧ (P1.step c s (.imageChunk ch false)).sess.imageChunks ≠ []
    ∧ (P1.step c s (.textMessage m)).sess.imageChunks = s.imageChunks
    ∧ (P1.step c s (.audioFull audio)).sess.imageChunks = s.imageChunks
    ∧ (P1.step c s .clearImage).sess.imageChunks = s.imageChunks
    ∧ (P2.step c s2 .disconnect).sess.imageChunks = [] := by
  refine ⟨by simp [P1.step], by simp [P1.step], by simp [P1.step],
    ?_, ?_, by simp [P1.step], by simp [P2.step]⟩
  · by_cases hb : s.isProcessing = true <;> simp [P1.step, hb]
  · by_cases hb : s.isProcessing = true
    · simp [P1.step, hb]
    · cases hTr : c.transcribeFull audio <;> simp [P1.step, hb, hTr]

/-- C7: after a clear_image event, image_cleared is emitted, the session
image is none, and the next dispatcher invocation — text_message, audio_full
or a transcription turn — passes no image to AiProcessing, regardless of the
uploads and events that preceded the clear_image; in part_001 and
part_002. -/
theorem c7_clear_image_dispatch (c : Collab) (es1 : List P1.InEvent)
    (es2 : List P2.InEvent) (m : String) (audio : ByteBuf) (t : String)
    (ht : t ≠ "") :
    (P1.step c (P1.runSeq c P1.initSession es1).sess .clearImage).out
        = [.imageCleared]
    ∧ (P1.step c (P1.runSeq c P1.initSession es1).sess
          .clearImage).sess.image = none
    ∧ (P1.step c
          (P1.step c (P1.runSeq c P1.initSession es1).sess .clearImage).sess
          (.textMessage m)).calls = [(none, m)]
    ∧ (∀ call ∈ (P1.step c
          (P1.step c (P1.runSeq c P1.initSession es1).sess .clearImage).sess
          (.audioFull audio)).calls, call.1 = none)
    ∧ (P2.step c (P2.runSeq c P2.initSession es2).sess .clearImage).out
        = [.imageCleared]
    ∧ (P2.step c (P2.runSeq c P2.initSession es2).sess
          .clearImage).sess.image = none
    ∧ (P2.step c
          (P2.step c (P2.runSeq c P2.initSession es2).sess .clearImage).sess
          (.textMessage m)).calls = [(none, m)]
    ∧ (P2.step c
          (P2.step c (P2.runSeq c P2.initSession es2).sess .clearImage).sess
          (.turn t)).calls = [(none, t)] := by
  have hf1 : (P1.runSeq c P1.initSession es1).sess.isProcessing = false :=
    P1.p1_runSeq_flag_false c es1 P1.initSession rfl
  have hf2 : (P2.runSeq c P2.initSession es2).sess.isProcessing = false :=
    P2.p2_runSeq_flag_false c es2 P2.initSession rfl
  set s1 := (P1.runSeq c P1.initSession es1).sess with hs1
  set s2 := (P2.runSeq c P2.initSession es2).sess with hs2
  refine ⟨by simp [P1.step], by simp [P1.step], ?_, ?_, by simp [P2.step],
    by simp [P2.step], ?_, ?_⟩
  · have : (P1.step c s1 .clearImage).sess
        = { s1 with image := none } := by simp [P1.step]
    rw [this]
    cases hAi : c.aiProcessing none m with
    | error e => simp [P1.step, P1.dispatch, hf1, hAi]
    | ok txt => cases hT : c.textToAudio txt <;>
        simp [P1.step, P1.dispatch, hf1, hAi, hT]
  · have : (P1.step c s1 .clearImage).sess
        = { s1 with image := none } := by simp [P1.step]
    rw [this]
    cases hTr : c.transcribeFull audio with
    | error e => simp [P1.step, hf1, hTr]
    | ok tr =>
      cases hAi : c.aiProcessing none (tr.getD "") with
      | error e => simp [P1.step, P1.dispatch, hf1, hTr, hAi]
      | ok txt => cases hT : c.textToAudio txt <;>
          simp [P1.step, P1.dispatch, hf1, hTr, hAi, hT]
  · have : (P2.step c s2 .clearImage).sess
        = { s2 with image := none } := by simp [P2.step]
    rw [this]
    cases hAi : c.aiProcessing none m with
    | error e => simp [P2.step, hf2, hAi]
    | ok txt => cases hT : c.textToAudio txt <;>
        simp [P2.step, hf2, hAi, hT]
  · have : (P2.step c s2 .clearImage).sess
        = { s2 with image := none } := by simp [P2.step]
    rw [this]
    cases hAi : c.aiProcessing none t with
    | error e => simp [P2.step, hf2, ht, hAi]
    | ok txt => cases hT : c.textToAudio txt <;>
        simp [P2.step, hf2, ht, hAi, hT]

/-- Witness for C7: after uploading an image and clearing it, a concrete
text_message dispatch receives no image in both variants, and a non-empty
turn transcript dispatches with no image in part_002. -/
theorem c7_clear_image_dispatch_witness :
    ("go" : String) ≠ ""
    ∧ (P1.step okCollab
          (P1.step okCollab
            (P1.runSeq okCollab P1.initSession [.imageChunk [9] true]).sess
            .clearImage).sess
          (.textMessage "q")).calls = [(none, "q")]
    ∧ (P2.step okCollab
          (P2.step okCollab
            (P2.runSeq okCollab P2.initSession
              [.imageChunk (.ok [9]) true]).sess
            .clearImage).sess
          (.turn "go")).calls = [(none, "go")] := by
  have h := c7_clear_image_dispatch okCollab [.imageChunk [9] true]
    [.imageChunk (.ok [9]) true] "q" [0] "go" (by decide)
  exact ⟨by decide, h.2.2.1, h.2.2.2.2.2.2.2⟩

/-- C8 counterexample: in src/server.js a failing AiProcessing call inside
the text_message handler is caught but only logged — no structured error
event (indeed no event at all) reaches the client — refuting the claim that
every client-event handler failure is surfaced as a structured error
event. -/
theorem c8_error_surfacing_cex :
    ¬ (∀ (c : Collab) (img : Option ByteBuf) (m : String),
          (∃ e, c.aiProcessing img m = .error e) →
          ∃ ty msg, OutEvent.errorEvent ty msg ∈ Srv.textMessageRun c img m) := by
  intro h
  rcases h failCollab none "hi" ⟨"model overloaded", rfl⟩ with ⟨ty, msg, hmem⟩
  simp [Srv.textMessageRun, failCollab] at hmem

/-- The error-type taxonomy of the specification. -/
def errorTaxonomy : List String :=
  ["busy", "stt", "ai_processing", "text_processing", "full_audio",
    "image_upload", "initialization"]

/-- C8 amended: in part_001 and part_002 every client-event handler absorbs
its failures at the handler boundary (each step function is total, so
nothing escapes to crash the process) and every error event either variant
emits carries a type from the taxonomy; in each variant a collaborator
failure in the dispatcher pipelines (text_message, turn, audio_full) and a
malformed image chunk each surface as exactly one structured error event.
In src/server.js, by contrast, the turn and text_message handlers catch
failures but only log them, emitting no error event (see the
counterexample). -/
theorem c8_error_surfacing_amended :
    (∀ (c : Collab) (s : P2.Session) (e : P2.InEvent) (ty msg : String),
      OutEvent.errorEvent ty msg ∈ (P2.step c s e).out → ty ∈ errorTaxonomy)
    ∧ (∀ (c : Collab) (s : P1.SessionData) (e : P1.InEvent) (ty msg : String),
      OutEvent.errorEvent ty msg ∈ (P1.step c s e).out → ty ∈ errorTaxonomy)
    ∧ (∀ (c : Collab) (s : P2.Session) (m e : String),
      s.isProcessing = false → c.aiProcessing s.image m = .error e →
      (P2.step c s (.textMessage m)).out
          = [.errorEvent "text_processing" "Failed to process your message"])
    ∧ (∀ (c : Collab) (s : P2.Session) (t e : String),
      s.isProcessing = false → t ≠ "" → c.aiProcessing s.image t = .error e →
      (P2.step c s (.turn t)).out
          = [.errorEvent "ai_processing" "Failed to process your request"])
    ∧ (∀ (c : Collab) (s : P2.Session) (e : String) (isLast : Bool),
      (P2.step c s (.imageChunk (.error e) isLast)).out
          = [.errorEvent "image_upload" e])
    ∧ (∀ (c : Collab) (s : P1.SessionData) (m e : String),
      s.isProcessing = false → c.aiProcessing s.image m = .error e →
      (P1.step c s (.textMessage m)).out
          = [.errorEvent "text_processing" e])
    ∧ (∀ (c : Collab) (s : P1.SessionData) (audio : ByteBuf) (e : String),
      s.isProcessing = false → c.transcribeFull audio = .error e →
      (P1.step c s (.audioFull audio)).out = [.errorEvent "full_audio" e])
    ∧ (∀ (s : P1.SessionData) (e : String) (isLast : Bool),
      (P1.imageChunkRun s (.error e) isLast).out
          = [.errorEvent "image_upload" e]) := by
  refine ⟨?_, ?_, ?_, ?_, ?_, ?_, ?_, ?_⟩
  · intro c s e ty msg hmem
    cases e with
    | imageChunk data isLast =>
      cases data with
      | error e' =>
        simp [P2.step] at hmem
        rw [hmem.1]; decide
      | ok chunk =>
        by_cases hl : isLast = true <;> simp [P2.step, hl] at hmem
    | textMessage m =>
      by_cases hb : s.isProcessing = true
      · simp [P2.step, hb] at hmem
        rw [hmem.1]; decide
      · cases hAi : c.aiProcessing s.image m with
        | error e' =>
          simp [P2.step, hb, hAi] at hmem
          rw [hmem.1]; decide
        | ok txt =>
          cases hT : c.textToAudio txt with
          | error e' =>
            simp [P2.step, hb, hAi, hT] at hmem
            rw [hmem.1]; decide
          | ok audio => simp [P2.step, hb, hAi, hT] at hmem
    | turn t =>
      by_cases h0 : t = ""
      · simp [P2.step, h0] at hmem
      · by_cases hb : s.isProcessing = true
        · simp [P2.step, h0, hb] at hmem
        · cases hAi : c.aiProcessing s.image t with
          | error e' =>
            simp [P2.step, h0, hb, hAi] at hmem
            rw [hmem.1]; decide
          | ok txt =>
            cases hT : c.textToAudio txt with
            | error e' =>
              simp [P2.step, h0, hb, hAi, hT] at hmem
              rw [hmem.1]; decide
            | ok audio => simp [P2.step, h0, hb, hAi, hT] at hmem
    | audioStart => simp [P2.step] at hmem
    | audioEnd => simp [P2.step] at hmem
    | clearImage => simp [P2.step] at hmem
    | disconnect => simp [P2.step] at hmem
  · intro c s e ty msg hmem
    cases e with
    | imageChunk chunk isLast =>
      by_cases hl : isLast = true <;> simp [P1.step, hl] at hmem
    | textMessage m =>
      by_cases hb : s.isProcessing = true
      · simp [P1.step, hb] at hmem
        rw [hmem.1]; decide
      · cases hAi : c.aiProcessing s.image m with
        | error e' =>
          simp [P1.step, P1.dispatch, hb, hAi] at hmem
          rw [hmem.1]; decide
        | ok txt =>
          cases hT : c.textToAudio txt with
          | error e' =>
            simp [P1.step, P1.dispatch, hb, hAi, hT] at hmem
            rw [hmem.1]; decide
          | ok audio => simp [P1.step, P1.dispatch, hb, hAi, hT] at hmem
    | audioFull audio =>
      by_cases hb : s.isProcessing = true
      · simp [P1.step, hb] at hmem
        rw [hmem.1]; decide
      · cases hTr : c.transcribeFull audio with
        | error e' =>
          simp [P1.step, hb, hTr] at hmem
          rw [hmem.1]; decide
        | ok tr =>
          cases hAi : c.aiProcessing s.image (tr.getD "") with
          | error e' =>
            simp [P1.step, P1.dispatch, hb, hTr, hAi] at hmem
            rw [hmem.1]; decide
          | ok txt =>
            cases hT : c.textToAudio txt with
            | error e' =>
              simp [P1.step, P1.dispatch, hb, hTr, hAi, hT] at hmem
              rw [hmem.1]; decide
            | ok audio' => simp [P1.step, P1.dispatch, hb, hTr, hAi, hT] at hmem
    | clearImage => simp [P1.step] at hmem
    | disconnect => simp [P1.step] at hmem
  · intro c s m e hb hAi
    simp [P2.step, hb, hAi]
  · intro c s t e hb h0 hAi
    simp [P2.step, hb, h0, hAi]
  · intro c s e isLast
    simp [P2.step]
  · intro c s m e hb hAi
    simp [P1.step, P1.dispatch, hb, hAi]
  · intro c s audio e hb hTr
    simp [P1.step, hb, hTr]
  · intro s e isLast
    simp [P1.imageChunkRun]

/-- Witness for C8 amended: taxonomy membership in both variants and the
surfacing facts at concrete failing inputs. -/
theorem c8_error_surfacing_amended_witness :
    ("image_upload" : String) ∈ errorTaxonomy
    ∧ ("text_processing" : String) ∈ errorTaxonomy
    ∧ (P2.step failCollab P2.initSession (.textMessage "hi")).out
        = [.errorEvent "text_processing" "Failed to process your message"]
    ∧ (P2.step failCollab P2.initSession (.turn "go")).out
        = [.errorEvent "ai_processing" "Failed to process your request"]
    ∧ (P2.step failCollab P2.initSession (.imageChunk (.error "bad") true)).out
        = [.errorEvent "image_upload" "bad"]
    ∧ (P1.step failCollab P1.initSession (.textMessage "hi")).out
        = [.errorEvent "text_processing" "model overloaded"]
    ∧ (P1.step failCollab P1.initSession (.audioFull [0])).out
        = [.errorEvent "full_audio" "stt unavailable"]
    ∧ (P1.imageChunkRun P1.initSession (.error "bad") true).out
        = [.errorEvent "image_upload" "bad"] := by
  refine ⟨?_, ?_, ?_, ?_, ?_, ?_, ?_, ?_⟩
  · exact c8_error_surfacing_amended.1 failCollab P2.initSession
      (.imageChunk (.error "bad") true) "image_upload" "bad" (by decide)
  · exact c8_error_surfacing_amended.2.1 failCollab P1.initSession
      (.textMessage "hi") "text_processing" "model overloaded" (by decide)
  · exact c8_error_surfacing_amended.2.2.1 failCollab P2.initSession
      "hi" "model overloaded" rfl rfl
  · exact c8_error_surfacing_amended.2.2.2.1 failCollab P2.initSession
      "go" "model overloaded" rfl (by decide) rfl
  · exact c8_error_surfacing_amended.2.2.2.2.1 failCollab P2.initSession
      "bad" true
  · exact c8_error_surfacing_amended.2.2.2.2.2.1 failCollab P1.initSession
      "hi" "model overloaded" rfl rfl
  · exact c8_error_surfacing_amended.2.2.2.2.2.2.1 failCollab P1.initSession
      [0] "stt unavailable" rfl rfl
  · exact c8_error_surfacing_amended.2.2.2.2.2.2.2 P1.initSession
      "bad" true

/-- C9 counterexample: the src/server.js disconnect handler awaits
transcriber.close() with no try/catch, so a close failure is not caught but
escapes the handler as an unhandled rejection — refuting the claim that a
close failure is always caught rather than propagated. -/
theorem c9_disconnect_close_cex :
    ¬ (∀ r : Except String Unit, (Srv.disconnectRun r).2 = none) := by
  intro h
  have h2 := h (.error "close failed")
  simp [Srv.disconnectRun] at h2

/-- C9 amended: disconnect makes at most one attempt to close the streaming
transcription handle.  In part_002 the attempt happens exactly once when a
handle was assigned — the guarded handler makes none when no handle exists —
and a close failure is caught rather than propagated; in src/server.js the
single close attempt is unguarded and its failure escapes the handler (see
the counterexample). -/
theorem c9_disconnect_close_amended (r : Except String Unit)
    (s : P2.Session) :
    (P2.disconnectRun r s).2.1 = (if s.transcriber then 1 else 0)
    ∧ (P2.disconnectRun r s).2.2 = none
    ∧ (Srv.disconnectRun r).1 = 1 := by
  refine ⟨?_, ?_, ?_⟩ <;> cases r <;> by_cases h : s.transcriber = true <;>
    simp [P2.disconnectRun, Srv.disconnectRun, h]

end PiSight
